import Mathlib

/-!
Shallow embedding of the Infortrend CheckMK plugin status decoders
(src/infortrend/agent_based/) together with proofs about the spec claims.

Modelling conventions:
* Raw SNMP status codes arrive as unsigned digit strings, so a decoded
  status is modelled as Nat; a field whose integer conversion failed
  (Python value the empty string) is modelled as none in an Option.
* A Python check function is a generator; running it to exhaustion gives
  the list of values it yielded plus, possibly, the exception that ended
  it.  This is modelled by the pair type PyRun below, so that values
  yielded before a crash are kept.
* Python dictionaries that the code only iterates or looks up are
  modelled as association lists in source order (CPython dicts preserve
  insertion order, which the chassis decoders rely on).
-/

namespace Infortrend

/-- Severity values of the CheckMK framework (OK = 0, WARN = 1, CRIT = 2,
UNKNOWN = 3). -/
inductive State where
  | OK
  | WARN
  | CRIT
  | UNKNOWN
deriving DecidableEq, Repr

/-- Python exceptions that the embedded code can raise. -/
inductive PyErr where
  | keyError
  | typeError
  | valueError
deriving DecidableEq, Repr

/-- One element yielded by a check generator: a Metric sample or a
(severity, summary) Result. -/
inductive Output where
  | metric (name : String) (value : ℚ)
  | result (state : State) (summary : String)
deriving DecidableEq, Repr

/-- Outcome of running a generator to exhaustion: the outputs yielded in
order, and the exception that ended the generator if it did not finish
normally. -/
abbrev PyRun := List Output × Option PyErr

/-- Keep only the (severity, summary) Results of a generator run. -/
def resultsOf (outs : List Output) : List (State × String) :=
  outs.filterMap fun o =>
    match o with
    | .result st s => some (st, s)
    | .metric _ _ => none

/-- Keep only the named metric samples of a generator run. -/
def metricsOf (outs : List Output) : List (String × ℚ) :=
  outs.filterMap fun o =>
    match o with
    | .metric n v => some (n, v)
    | .result _ _ => none

/-- Decimal value of one digit character, none for any other
character. -/
def digitVal (c : Char) : Option Nat :=
  if 48 ≤ c.toNat ∧ c.toNat ≤ 57 then some (c.toNat - 48) else none

/-- Accumulate decimal digits; none when a non-digit appears or when no
digit was seen at all. -/
def parseNatDigits : List Char → Option Nat → Option Nat
  | [], acc => acc
  | c :: rest, acc =>
    match digitVal c with
    | none => none
    | some d => parseNatDigits rest (some (acc.getD 0 * 10 + d))

/-- Python int() on a raw SNMP token: an optionally sign-prefixed run of
decimal digits, anything else failing.  (Python also strips surrounding
whitespace and accepts digit group underscores; the SNMP tokens the
claims range over are plain digit strings, where the two agree.) -/
def pyIntParse (s : String) : Option Int :=
  match s.data with
  | '-' :: rest => (parseNatDigits rest none).map (fun n => -(n : Int))
  | '+' :: rest => (parseNatDigits rest none).map (fun n => (n : Int))
  | l => (parseNatDigits l none).map (fun n => (n : Int))

/-- core.saveint: try to convert a raw token to an integer, or return
the empty string (modelled as none) on conversion failure. -/
def saveint (s : String) : Option Int :=
  pyIntParse s

/-- Python str() of an int-or-empty-string value: str of the integer, or
the empty string itself. -/
def pyStr (o : Option Int) : String :=
  match o with
  | some n => toString n
  | none => ""

/-- dict.setdefault as used by every parser: insert the key/value pair
only when the key is not present yet (first-seen-wins). -/
def setdefault {α : Type} (m : List (String × α)) (k : String) (v : α) :
    List (String × α) :=
  if (m.lookup k).isSome then m else m ++ [(k, v)]

/-! ## Core data model (core.py)

InfortrendChassisSensorTypeEnum values: POWER_SUPPLY = 1, FAN = 2,
TEMPERATURE = 3, UPS = 4, VOLTAGE = 5, CURRENT = 6, DOOR = 9,
SPEAKER = 10, BATTERY = 11, LED = 12, CBU = 13, NET_IF = 14,
BACKPLANE = 15, SLOT = 17, ENCLOSURE_DRAWER = 18, ENCLOSURE_MGMNT = 31.
Sensor types are carried as their numeric codes. -/

/-- core.InfortrendChassisSensorSection: one parsed chassis sensor row. -/
structure InfortrendChassisSensorSection where
  sensor_status : Option Nat
  sensor_type : Option Nat
  metric_value_raw : Option Int
  metric_unit_raw : String
deriving DecidableEq, Repr

/-- The sixteen members of InfortrendChassisSensorTypeEnum. -/
def chassisSensorTypeCodes : List Nat :=
  [1, 2, 3, 4, 5, 6, 9, 10, 11, 12, 13, 14, 15, 17, 18, 31]

/-! ## Chassis dialect A (infortrend_chassis_a.py) -/

namespace ChassisA

/-- infortrend_chassis_a.STATUS_INFO_MAP: per sensor type, the declared
bit positions with their (message-if-clear, message-if-set) pairs, in
source (ascending) order.  The adtl_info / adtl_func sub-tables of the
source are omitted here because check_infortrend_chassis_sensors_a never
reads them. -/
def STATUS_INFO_MAP : List (Nat × List (Nat × String × String)) := [
  (1, [
    (0, "Power supply functioning normally", "Power supply malfunctioning"),
    (6, "Power supply is ON", "Power supply is OFF"),
    (7, "Power supply IS present", "Power supply is NOT present")]),
  (2, [
    (0, "Fan functioning normally", "Fan malfunctioning"),
    (6, "Fan is ON", "Fan is OFF"),
    (7, "Fan IS present", "Fan is NOT present")]),
  (3, [
    (0, "Temp. sensor functioning normally", "Temp. sensor malfunctioning"),
    (6, "Temp. Sensor is Activated", "Temp. Sensor is NOT Activated"),
    (7, "Temperature sensor IS present", "Temperature sensor is NOT present")]),
  (4, [
    (0, "Unit functioning normally", "Unit malfunctioning"),
    (1, "AC Power present", "AC Power NOT present"),
    (6, "UPS is ON", "UPS is OFF"),
    (7, "UPS IS present", "UPS is NOT present")]),
  (5, [
    (0, "Voltage sensor functioning normally", "Voltage sensor malfunctioning"),
    (6, "Voltage Sensor is Activated", "Voltage Sensor is NOT Activated"),
    (7, "Voltage sensor IS present", "Voltage sensor is NOT present")]),
  (6, [
    (0, "Current sensor functioning normally", "Current sensor malfunctioning"),
    (6, "Current Sensor is Activated", "Current Sensor is NOT Activated"),
    (7, "Current sensor IS present", "Current sensor is NOT present")]),
  (9, [
    (0, "Door OK", "Door, door lock, or door sensor malfunctioning"),
    (1, "Door is shut", "Door is open"),
    (6, "Door lock engaged", "Door lock NOT engaged"),
    (7, "Door IS present", "Door is NOT present")]),
  (10, [
    (0, "Speaker functioning normally", "Speaker malfunctioning"),
    (6, "Speaker is ON", "Speaker is OFF"),
    (7, "Speaker IS present", "Speaker is NOT present")]),
  (11, [
    (0, "Battery functioning normally", "Battery malfunctioning"),
    (1, "Battery charging OFF (or trickle)", "Battery charging ON"),
    (6, "Battery-backup is enabled", "Battery-backup is disabled"),
    (7, "Battery IS present", "Battery is NOT present")]),
  (12, [
    (0, "LED functioning normally", "LED malfunctioning"),
    (6, "LED is ON", "LED is OFF"),
    (7, "LED IS present", "LED is NOT present")]),
  (13, [
    (0, "Cache Backup Module functioning normally", "Cache Backup Module malfunctioning"),
    (6, "Cache Backup Module is ON", "Cache Backup Module is OFF"),
    (7, "Cache Backup Module IS present", "Cache Backup Module is NOT present")]),
  (14, [
    (0, "interface functioning normally", "interface malfunctioning"),
    (6, "interface is up", "interface is down"),
    (7, "interface IS present", "interface is NOT present")]),
  (17, [
    (0, "Slot sense circuitry functioning normally", "Slot sense circuitry malfunctioning"),
    (1, "Device in slot has not been marked \"needing replacement\" or a replacement drive has been inserted",
        "Device in slot has been marked BAD and is awaiting replacement"),
    (2, "Slot is activated so that drive can be accessed", "Slot NOT activated"),
    (6, "Slot is NOT ready for insertion/removal", "Slot is ready for insertion/removal"),
    (7, "Device inserted in slot", "Slot is empty")])]

/-- infortrend_chassis_a.SENSORS_WITH_METRIC: sensor type code to
(divider, metric name). -/
def SENSORS_WITH_METRIC : List (Nat × Nat × String) :=
  [(3, 10, "temp"), (5, 1000, "voltage")]

/-- One iteration of the status loop of
check_infortrend_chassis_sensors_a: bit_set = (status & 1 << bit) >> bit;
a set bit below 6 maps to CRIT with the message at tuple index bit_set,
any other combination to OK with the message at tuple index bit_set. -/
def bitPair (status : Nat) (bit : Nat) (pair : String × String) :
    State × String :=
  let bit_set := (status &&& (1 <<< bit)) >>> bit
  let msg := if bit_set = 1 then pair.2 else pair.1
  if bit_set ≠ 0 ∧ bit < 6 then (State.CRIT, msg) else (State.OK, msg)

/-- The full status loop: each iteration overwrites the single
(extended_status, status_info_text) pair, so the fold ignores its
accumulator.  The initial pair models extended_status = 0,
status_info_text = mk-empty before the loop. -/
def decodeBits (status : Nat) (bits : List (Nat × String × String)) :
    State × String :=
  bits.foldl (fun _ e => bitPair status e.1 e.2) (State.OK, "")

/-- Metric part of check_infortrend_chassis_sensors_a (identical in the
B dialect): a type listed in SENSORS_WITH_METRIC yields one metric of
value metric_value_raw / divider; an absent raw value then raises
TypeError; any other type yields nothing. -/
def metricPhase (r : InfortrendChassisSensorSection) :
    Except PyErr (List Output) :=
  match r.sensor_type with
  | none => .ok []
  | some t =>
    match SENSORS_WITH_METRIC.lookup t with
    | none => .ok []
    | some (divider, name) =>
      match r.metric_value_raw with
      | none => .error .typeError
      | some v => .ok [.metric name ((v : ℚ) / (divider : ℚ))]

/-- Status part of check_infortrend_chassis_sensors_a.  A sensor status
equal to 0 yields one OK Result with the clear message of bit 0
(KeyError when the type or its bit 0 is not in the table); otherwise the
type lookup happens first (KeyError when missing), then the loop runs: an
absent status raises TypeError at the first bit test, an integer status
yields exactly one Result carrying the pair of the last iteration. -/
def statusPhase (r : InfortrendChassisSensorSection) : PyRun :=
  if r.sensor_status = some 0 then
    match r.sensor_type.bind (STATUS_INFO_MAP.lookup ·) with
    | none => ([], some .keyError)
    | some bits =>
      match bits.lookup 0 with
      | none => ([], some .keyError)
      | some pair => ([.result State.OK pair.1], none)
  else
    match r.sensor_type.bind (STATUS_INFO_MAP.lookup ·) with
    | none => ([], some .keyError)
    | some bits =>
      match r.sensor_status, bits with
      | _, [] => ([.result State.OK ""], none)
      | none, _ :: _ => ([], some .typeError)
      | some s, _ :: _ =>
        ([.result (decodeBits s bits).1 (decodeBits s bits).2], none)

/-- check_infortrend_chassis_sensors_a on one record of the section:
metrics are yielded first, then the status Result. -/
def checkRec (r : InfortrendChassisSensorSection) : PyRun :=
  match metricPhase r with
  | .error e => ([], some e)
  | .ok ms =>
    let (outs, err) := statusPhase r
    (ms ++ outs, err)

/-- check_infortrend_chassis_sensors_a: an item missing from the section
yields one UNKNOWN Result. -/
def check_infortrend_chassis_sensors_a (item : String)
    (sect : List (String × InfortrendChassisSensorSection)) : PyRun :=
  match sect.lookup item with
  | some r => checkRec r
  | none => ([.result State.UNKNOWN "cannot parse: None"], none)

/-- Bool test: the declared bit list ends with a bit of position 6 or
higher. -/
def lastBitHigh (bits : List (Nat × String × String)) : Bool :=
  match bits.getLast? with
  | some b => decide (6 ≤ b.1)
  | none => false

/-- The metric outputs of a chassis check for a given sensor type and
raw metric value. -/
def metricOuts (t : Nat) (v : Int) : List Output :=
  if t = 3 then [.metric "temp" ((v : ℚ) / 10)]
  else if t = 5 then [.metric "voltage" ((v : ℚ) / 1000)]
  else []

end ChassisA

/-! ## Chassis dialect B (infortrend_chassis_b.py) -/

namespace ChassisB

/-- infortrend_chassis_b.STATUS_INFO_MAP.  The entry for raw type code 8
(Temperature Out-of-Range Flags) is an empty dict without a bits table,
modelled as none: indexing it with the bits key raises KeyError.  The
adtl_info / adtl_func sub-tables are again omitted as never read by the
check function. -/
def STATUS_INFO_MAP :
    List (Nat × Option (List (Nat × String × String))) := [
  (1, some [
    (0, "Power supply functioning normally", "Power supply malfunctioning"),
    (6, "Power supply is ON", "Power supply is OFF"),
    (7, "Power supply IS present", "Power supply is NOT present")]),
  (2, some [
    (0, "Fan functioning normally", "Fan malfunctioning"),
    (6, "Fan is ON", "Fan is OFF"),
    (7, "Fan IS present", "Fan is NOT present")]),
  (3, some [
    (0, "Temp. sensor functioning normally", "Temp. sensor malfunctioning"),
    (6, "Temp. Sensor is Activated", "Temp. Sensor is NOT Activated"),
    (7, "Temperature sensor IS present", "Temperature sensor is NOT present")]),
  (4, some [
    (0, "Unit functioning normally", "Unit malfunctioning"),
    (1, "AC Power present", "AC Power NOT present"),
    (6, "UPS is ON", "UPS is OFF"),
    (7, "UPS IS present", "UPS is NOT present")]),
  (5, some [
    (0, "Voltage sensor functioning normally", "Voltage sensor malfunctioning"),
    (6, "Voltage Sensor is Activated", "Voltage Sensor is NOT Activated"),
    (7, "Voltage sensor IS present", "Voltage sensor is NOT present")]),
  (6, some [
    (0, "Current sensor functioning normally", "Current sensor malfunctioning"),
    (6, "Current Sensor is Activated", "Current Sensor is NOT Activated"),
    (7, "Current sensor IS present", "Current sensor is NOT present")]),
  (8, none),
  (9, some [
    (0, "Door OK", "Door, door lock, or door sensor malfunctioning"),
    (1, "Door is shut", "Door is open"),
    (6, "Door lock engaged", "Door lock NOT engaged"),
    (7, "Door IS present", "Door is NOT present")]),
  (10, some [
    (0, "Speaker functioning normally", "Speaker malfunctioning"),
    (6, "Speaker is ON", "Speaker is OFF"),
    (7, "Speaker IS present", "Speaker is NOT present")]),
  (11, some [
    (0, "Battery functioning normally", "Battery malfunctioning"),
    (1, "Battery charging OFF (or trickle)", "Battery charging ON"),
    (6, "Battery-backup is enabled", "Battery-backup is disabled"),
    (7, "Battery IS present", "Battery is NOT present")]),
  (12, some [
    (0, "", ""),
    (6, "LED is active", "LED is inactive"),
    (7, "LED is present", "LED is NOT present")]),
  (13, some [
    (0, "Flash Device functioning normally", "Flash Device malfunctioning"),
    (6, "Flash Device is enabled", "Flash Device is disabled"),
    (7, "Flash Device is present", "Flash Device is NOT present")]),
  (14, some [
    (0, "Host Board IS present", ""),
    (7, "Host Board IS present", "Host Board is NOT present")]),
  (15, some [
    (0, "Midplane/Backplane", "")]),
  (17, some [
    (0, "Slot sense circuitry functioning normally", "Slot sense circuitry malfunctioning"),
    (1, "Device in slot has not been marked \"needing replacement\" or a replacement drive has been inserted",
        "Device in slot has been marked BAD and is awaiting replacement"),
    (2, "Slot is activated so that drive can be accessed", "Slot NOT activated"),
    (6, "Slot is NOT ready for insertion/removal", "Slot is ready for insertion/removal"),
    (7, "Device inserted in slot", "Slot is empty")]),
  (18, some [
    (0, "Enclosure Drawer functioning normally", "Enclosure Drawer malfunctioning"),
    (6, "Enclosure Drawer is closed", "Enclosure Drawer is opened"),
    (7, "Enclosure Drawer is present", "Enclosure Drawer is NOT present")]),
  (31, some [
    (0, "Enclosure Management Services Controller functioning normally",
        "Enclosure Management Services Controller malfunctioning"),
    (6, "Enclosure Management Services Controller is closed",
        "Enclosure Management Services Controller is opened"),
    (7, "Enclosure Management Services Controller is present",
        "Enclosure Management Services Controller is NOT present")])]

/-- infortrend_chassis_b.SENSORS_WITH_METRIC (textually identical to the
A dialect table). -/
def SENSORS_WITH_METRIC : List (Nat × Nat × String) :=
  [(3, 10, "temp"), (5, 1000, "voltage")]

/-- One iteration of the status loop of
check_infortrend_chassis_sensors_b for sensor type code t: a set bit
yields CRIT with the message at tuple index bit_set suffixed with
" (!)", a clear bit OK with the clear message; when the raw status is
exactly 64 the pair is then overridden: OK with a trailing ", " for LED
sensors (type 12), CRIT with the raw status prefixed for all others. -/
def bitResult (t : Nat) (status : Nat) (bit : Nat)
    (pair : String × String) : State × String :=
  let bit_set := (status &&& (1 <<< bit)) >>> bit
  let (st, txt) :=
    if bit_set ≠ 0 then
      (State.CRIT, (if bit_set = 1 then pair.2 else pair.1) ++ " (!)")
    else
      (State.OK, pair.1)
  if status = 64 then
    if t = 12 then (State.OK, txt ++ ", ")
    else (State.CRIT, toString status ++ " " ++ txt)
  else (st, txt)

/-- Status part of check_infortrend_chassis_sensors_b: status 0 yields
one OK Result with the clear message of bit 0; status 255 yields one
UNKNOWN Result without touching the table; otherwise the type lookup
happens (KeyError when the type is missing or its entry has no bits
table), then one Result is yielded per declared bit, an absent status
raising TypeError at the first bit test. -/
def statusPhase (r : InfortrendChassisSensorSection) : PyRun :=
  if r.sensor_status = some 0 then
    match r.sensor_type.bind (STATUS_INFO_MAP.lookup ·) with
    | none => ([], some .keyError)
    | some none => ([], some .keyError)
    | some (some bits) =>
      match bits.lookup 0 with
      | none => ([], some .keyError)
      | some pair => ([.result State.OK pair.1], none)
  else if r.sensor_status = some 255 then
    ([.result State.UNKNOWN "Status unknown"], none)
  else
    match r.sensor_type with
    | none => ([], some .keyError)
    | some t =>
      match STATUS_INFO_MAP.lookup t with
      | none => ([], some .keyError)
      | some none => ([], some .keyError)
      | some (some bits) =>
        match r.sensor_status, bits with
        | _, [] => ([], none)
        | none, _ :: _ => ([], some .typeError)
        | some s, _ :: _ =>
          (bits.map fun e => .result (bitResult t s e.1 e.2).1
            (bitResult t s e.1 e.2).2, none)

/-- Metric part of check_infortrend_chassis_sensors_b, identical line by
line to the A dialect. -/
def metricPhase (r : InfortrendChassisSensorSection) :
    Except PyErr (List Output) :=
  match r.sensor_type with
  | none => .ok []
  | some t =>
    match SENSORS_WITH_METRIC.lookup t with
    | none => .ok []
    | some (divider, name) =>
      match r.metric_value_raw with
      | none => .error .typeError
      | some v => .ok [.metric name ((v : ℚ) / (divider : ℚ))]

/-- check_infortrend_chassis_sensors_b on one record of the section. -/
def checkRec (r : InfortrendChassisSensorSection) : PyRun :=
  match metricPhase r with
  | .error e => ([], some e)
  | .ok ms =>
    let (outs, err) := statusPhase r
    (ms ++ outs, err)

/-- check_infortrend_chassis_sensors_b: an item missing from the section
yields one UNKNOWN Result. -/
def check_infortrend_chassis_sensors_b (item : String)
    (sect : List (String × InfortrendChassisSensorSection)) : PyRun :=
  match sect.lookup item with
  | some r => checkRec r
  | none => ([.result State.UNKNOWN "cannot parse: None"], none)

end ChassisB

/-! ## Shared Python value helpers for the disk parsers -/

/-- Python bare int() on a raw token: ValueError on conversion failure. -/
def pyInt (s : String) : Except PyErr Int :=
  match pyIntParse s with
  | some n => .ok n
  | none => .error .valueError

/-- Python truthiness of an int-or-empty-string value: the empty string
and 0 are falsy. -/
def pyTruthy (o : Option Int) : Bool :=
  match o with
  | some n => n ≠ 0
  | none => false

/-- Python `a or b` for an int-or-empty-string a and an integer b. -/
def pyOr (a : Option Int) (b : Int) : Int :=
  if pyTruthy a then a.getD b else b

/-- Python equality between an int and a str: always False, there is no
coercion between the two types. -/
def pyEqIntStr (_ : Nat) (_ : String) : Bool :=
  false

/-! ## Disks dialect A (infortrend_disks_a.py) -/

namespace DisksA

/-- infortrend_disks_a.DISK_STATUS_MAP: SNMP disk status code to
description. -/
def DISK_STATUS_MAP : List (Int × String) := [
  (0, "New Drive"),
  (1, "On-Line Drive"),
  (2, "Used Drive"),
  (3, "Spare Drive"),
  (4, "Drive Initialization in Progress"),
  (5, "Drive Rebuild in Progress"),
  (6, "Add Drive to Logical Drive in Progress"),
  (9, "Global Spare Drive"),
  (17, "Drive is in process of Cloning another Drive"),
  (18, "Drive is a valid Clone of another Drive"),
  (19, "Drive is in process of Copying from another Drive (for Copy/Replace LD Expansion function)"),
  (63, "Drive Absent"),
  (128, "SCSI Device (Type 0)"),
  (129, "SCSI Device (Type 1)"),
  (130, "SCSI Device (Type 2)"),
  (131, "SCSI Device (Type 3)"),
  (132, "SCSI Device (Type 4)"),
  (133, "SCSI Device (Type 5)"),
  (134, "SCSI Device (Type 6)"),
  (135, "SCSI Device (Type 7)"),
  (136, "SCSI Device (Type 8)"),
  (137, "SCSI Device (Type 9)"),
  (138, "SCSI Device (Type 10)"),
  (139, "SCSI Device (Type 11)"),
  (140, "SCSI Device (Type 12)"),
  (141, "SCSI Device (Type 13)"),
  (142, "SCSI Device (Type 14)"),
  (143, "SCSI Device (Type 15)"),
  (252, "Missing Global Spare Drive"),
  (253, "Missing Spare Drive"),
  (254, "Missing Drive"),
  (255, "Failed Drive")]

/-- infortrend_disks_a.InfortrendDiskSection. -/
structure InfortrendDiskSection where
  slot : String
  state : Option Int
  description : String
deriving DecidableEq, Repr

/-- Modelled from the spec: cmk.agent_based.v2.render.disksize is
framework code outside this repository; per the spec the description
only carries a pre-formatted size string, and its exact rendering is
irrelevant to every claim, which treat the description as opaque text. -/
def disksize (nbytes : Int) : String :=
  toString nbytes ++ " B"

/-- parse_infortrend_disks: slot and state use the lenient conversions,
but size and blocksize go through bare int(), so a non-numeric token in
either of those columns raises ValueError and aborts the whole parse.
Rows are accessed at fixed positions; the SNMP layer always delivers the
full seven columns, so the short-row IndexError of Python is not
modelled. -/
def parse_infortrend_disks (table : List (List String)) :
    Except PyErr (List (String × InfortrendDiskSection)) :=
  table.foldlM
    (fun parsed line => do
      let slot := line.getD 0 ""
      let state := saveint (line.getD 1 "")
      let model := line.getD 2 ""
      let version := line.getD 3 ""
      let serial := line.getD 4 ""
      let size ← pyInt (line.getD 5 "")
      let blocksize ← pyInt (line.getD 6 "")
      let disksize_bytes := size * 2 ^ blocksize.toNat
      pure (setdefault parsed slot
        ⟨slot, state,
          model ++ " " ++ version ++ " " ++ serial ++ ", " ++
            disksize disksize_bytes ++ ", "⟩))
    []

/-- check_infortrend_disks on one record: an absent state is not a key
of the table and lands in the same UNKNOWN branch as an unmapped code;
the branch order of the source (unknown, {1,3,9}, > 63, otherwise) is
kept. -/
def checkRec (d : InfortrendDiskSection) : List Output :=
  let state_description := d.description
  match d.state with
  | none =>
    [.result State.UNKNOWN (state_description ++ "Status is " ++ pyStr d.state)]
  | some n =>
    match DISK_STATUS_MAP.lookup n with
    | none =>
      [.result State.UNKNOWN (state_description ++ "Status is " ++ toString n)]
    | some txt =>
      if n = 1 ∨ n = 3 ∨ n = 9 then
        [.result State.OK (state_description ++ txt)]
      else if n > 63 then
        [.result State.CRIT (state_description ++ txt)]
      else
        [.result State.WARN (state_description ++ txt)]

/-- check_infortrend_disks: an item missing from the section yields one
UNKNOWN Result. -/
def check_infortrend_disks (item : String)
    (sect : List (String × InfortrendDiskSection)) : List Output :=
  match sect.lookup item with
  | some d => checkRec d
  | none => [.result State.UNKNOWN "None is not valid"]

end DisksA

/-! ## Disks dialect B (infortrend_disks_b.py) -/

namespace DisksB

/-- infortrend_disks_b.DISK_STATUS_MAP, textually identical to the A
dialect table. -/
def DISK_STATUS_MAP : List (Int × String) :=
  DisksA.DISK_STATUS_MAP

/-- infortrend_disks_b.InfortrendDiskSection (no description field). -/
structure InfortrendDiskSection where
  slot : String
  state : Option Int
deriving DecidableEq, Repr

/-- parse_infortrend_disks_b: the key is str(saveint(slot) or row
index); the guard `disk_no == "0"` of the source compares the integer
loop index with a string and therefore never skips a row. -/
def parse_infortrend_disks_b (table : List (List String)) :
    List (String × InfortrendDiskSection) :=
  (table.enum).foldl
    (fun parsed p =>
      let disk_no : Nat := p.1
      let line := p.2
      let slot := toString (pyOr (saveint (line.getD 0 "")) (disk_no : Int))
      let state := saveint (line.getD 1 "")
      if pyEqIntStr disk_no "0" then parsed
      else setdefault parsed slot ⟨slot, state⟩)
    []

/-- check_infortrend_disks_b on one record: same shape as dialect A but
with no description prefix and 63 added to the OK codes. -/
def checkRec (d : InfortrendDiskSection) : List Output :=
  match d.state with
  | none => [.result State.UNKNOWN ("Status is " ++ pyStr d.state)]
  | some n =>
    match DISK_STATUS_MAP.lookup n with
    | none => [.result State.UNKNOWN ("Status is " ++ toString n)]
    | some txt =>
      if n = 1 ∨ n = 3 ∨ n = 9 ∨ n = 63 then
        [.result State.OK txt]
      else if n > 63 then
        [.result State.CRIT txt]
      else
        [.result State.WARN txt]

/-- check_infortrend_disks_b: an item missing from the section yields
one UNKNOWN Result. -/
def check_infortrend_disks_b (item : String)
    (sect : List (String × InfortrendDiskSection)) : List Output :=
  match sect.lookup item with
  | some d => checkRec d
  | none => [.result State.UNKNOWN "None is not valid"]

end DisksB

/-! ## Logical drives dialect A (infortrend_logical_drives_a.py) -/

namespace LogicalDrivesA

/-- infortrend_logical_drives_a.LDRIVE_STATE_INFO_MAP. -/
def LDRIVE_STATE_INFO_MAP : List (Nat × String) := [
  (0, "Good"),
  (1, "Rebuilding"),
  (2, "Initializing"),
  (3, "Degraded"),
  (4, "Dead"),
  (5, "Invalid"),
  (6, "Incomplete"),
  (7, "Drive Missing")]

/-- infortrend_logical_drives_a.InfortrendLogicalDriveSection. -/
structure InfortrendLogicalDriveSection where
  sensor_state : Option Nat
deriving DecidableEq, Repr

/-- check_infortrend_logical_drives_a on one record: an absent state
raises TypeError at the bit-7 test; bit 7 set prepends the off-line text
and masks the state to its low 7 bits; a masked state outside the table
assigns an UNKNOWN verdict but then crashes with KeyError at the
unguarded format line, so nothing is yielded; otherwise one Result is
yielded with severity 0 OK, 1 or 2 WARN, above 2 CRIT. -/
def checkRec (r : InfortrendLogicalDriveSection) : PyRun :=
  match r.sensor_state with
  | none => ([], some .typeError)
  | some s0 =>
    let result_summary :=
      if s0 &&& 128 = 128 then "Logical Drive Off-line (RW)" else ""
    let ld_state := if s0 &&& 128 = 128 then s0 &&& 127 else s0
    match LDRIVE_STATE_INFO_MAP.lookup ld_state with
    | none => ([], some .keyError)
    | some txt =>
      let result_summary := result_summary ++ " " ++ txt
      let result_state :=
        if ld_state = 0 then State.OK
        else if ld_state = 1 ∨ ld_state = 2 then State.WARN
        else if ld_state > 2 then State.CRIT
        else State.UNKNOWN
      ([.result result_state result_summary], none)

/-- check_infortrend_logical_drives_a: an item missing from the section
yields one UNKNOWN Result. -/
def check_infortrend_logical_drives_a (item : String)
    (sect : List (String × InfortrendLogicalDriveSection)) : PyRun :=
  match sect.lookup item with
  | some r => checkRec r
  | none => ([.result State.UNKNOWN "cannot parse: None"], none)

end LogicalDrivesA

/-! ## Logical drives dialect B (infortrend_logical_drives_b.py) -/

namespace LogicalDrivesB

/-- infortrend_logical_drives_b.DRIVE_STATE_INFO_MAP: the A table plus
code 64 mapping to Good. -/
def DRIVE_STATE_INFO_MAP : List (Nat × String) := [
  (0, "Good"),
  (1, "Rebuilding"),
  (2, "Initializing"),
  (3, "Degraded"),
  (4, "Dead"),
  (5, "Invalid"),
  (6, "Incomplete"),
  (7, "Drive Missing"),
  (64, "Good")]

/-- infortrend_logical_drives_b.InfortrendLogicalDriveSection. -/
structure InfortrendLogicalDriveSection where
  sensor_state : Option Nat
deriving DecidableEq, Repr

/-- check_infortrend_logical_drives_b on one record: like dialect A but
a masked state outside the table first yields an UNKNOWN Result carrying
the masked numeral and only then crashes with KeyError at the unguarded
table lookup of the message-building line; the off-line prefix is joined
with a comma; severities are 0 or 64 OK, 1 or 2 WARN, 3 to 7 CRIT. -/
def checkRec (r : InfortrendLogicalDriveSection) : PyRun :=
  match r.sensor_state with
  | none => ([], some .typeError)
  | some s0 =>
    let result_summary :=
      if s0 &&& 128 = 128 then "Logical Drive Off-line (RW)" else ""
    let ld_state := if s0 &&& 128 = 128 then s0 &&& 127 else s0
    match DRIVE_STATE_INFO_MAP.lookup ld_state with
    | none =>
      ([.result State.UNKNOWN ("Status is " ++ toString ld_state)],
        some .keyError)
    | some txt =>
      let result_summary :=
        if result_summary ≠ "" then result_summary ++ ", " ++ txt else txt
      let result_state :=
        if ld_state = 0 ∨ ld_state = 64 then State.OK
        else if ld_state = 1 ∨ ld_state = 2 then State.WARN
        else if ld_state = 3 ∨ ld_state = 4 ∨ ld_state = 5 ∨
            ld_state = 6 ∨ ld_state = 7 then State.CRIT
        else State.UNKNOWN
      ([.result result_state result_summary], none)

/-- check_infortrend_logical_drives_b: an item missing from the section
yields one UNKNOWN Result. -/
def check_infortrend_logical_drives_b (item : String)
    (sect : List (String × InfortrendLogicalDriveSection)) : PyRun :=
  match sect.lookup item with
  | some r => checkRec r
  | none => ([.result State.UNKNOWN "cannot parse: None"], none)

end LogicalDrivesB

/-! ## Claim-side definitions (written from the spec wording, to be
compared with the source translations above) -/

/-- The severity C5 assigns to a disk code found in the status table,
dialect A: codes 1, 3 and 9 are OK, any other mapped code above 63 is
CRIT, every other mapped code is WARN. -/
def diskSeverityClaimedA (n : Int) : State :=
  if n = 1 ∨ n = 3 ∨ n = 9 then State.OK
  else if n > 63 then State.CRIT
  else State.WARN

/-- The severity C5 assigns to a disk code found in the status table,
dialect B: like dialect A but with 63 added to the OK codes. -/
def diskSeverityClaimedB (n : Int) : State :=
  if n = 1 ∨ n = 3 ∨ n = 9 ∨ n = 63 then State.OK
  else if n > 63 then State.CRIT
  else State.WARN

/-- The disks B parser as amended C10 describes it: every row is
processed (no row is ever skipped), the key is str(int(slot) or row
index), and insertion is first-seen-wins. -/
def parse_infortrend_disks_b_claimed (table : List (List String)) :
    List (String × DisksB.InfortrendDiskSection) :=
  (table.enum).foldl
    (fun parsed p =>
      let slot := toString (pyOr (saveint (p.2.getD 0 "")) (p.1 : Int))
      setdefault parsed slot ⟨slot, saveint (p.2.getD 1 "")⟩)
    []

/-! ## Generic helper lemmas -/

theorem lookup_mem {κ α : Type} [BEq κ] [LawfulBEq κ]
    (l : List (κ × α)) (k : κ) (v : α) (h : l.lookup k = some v) :
    (k, v) ∈ l := by
  induction l with
  | nil => simp [List.lookup] at h
  | cons e t ih =>
    obtain ⟨ek, ev⟩ := e
    by_cases hk : k = ek
    · subst hk
      simp [List.lookup] at h
      simp [h]
    · rw [List.lookup] at h
      simp only [beq_false_of_ne hk] at h
      exact List.mem_cons_of_mem _ (ih h)

/-- A fold whose step function ignores its accumulator returns the image
of the last element: this is the last-bit-wins behaviour of the chassis
A status loop. -/
theorem foldl_const_last {α β : Type} (f : α → β) :
    ∀ (l : List α) (init : β), l ≠ [] →
      ∃ last, l.getLast? = some last ∧
        l.foldl (fun _ e => f e) init = f last := by
  intro l
  induction l with
  | nil => intro init h; exact absurd rfl h
  | cons a t ih =>
    intro init _
    cases t with
    | nil => exact ⟨a, rfl, rfl⟩
    | cons b t2 =>
      obtain ⟨last, h1, h2⟩ := ih (f a) (by simp)
      refine ⟨last, ?_, ?_⟩
      · simpa [List.getLast?_cons_cons] using h1
      · simpa using h2

theorem resultsOf_append (a b : List Output) :
    resultsOf (a ++ b) = resultsOf a ++ resultsOf b := by
  simp [resultsOf]

theorem metricsOf_append (a b : List Output) :
    metricsOf (a ++ b) = metricsOf a ++ metricsOf b := by
  simp [metricsOf]

/-! ## Chassis A lemmas -/

namespace ChassisA

/-- Every type of the A status table declares bit 0 and ends its bit
list with bit 6 or 7. -/
theorem table_wf :
    ∀ e ∈ STATUS_INFO_MAP,
      ((e.2.lookup 0).isSome && lastBitHigh e.2) = true := by
  decide

theorem metricPhase_eq (st : Option Nat) (t : Nat) (v : Int) (u : String) :
    metricPhase ⟨st, some t, some v, u⟩ = .ok (metricOuts t v) := by
  by_cases h3 : t = 3
  · subst h3; rfl
  · by_cases h5 : t = 5
    · subst h5; rfl
    · have b3 : (t == 3) = false := beq_false_of_ne h3
      have b5 : (t == 5) = false := beq_false_of_ne h5
      simp [metricPhase, List.lookup, metricOuts, b3, b5, h3, h5]

theorem resultsOf_metricOuts (t : Nat) (v : Int) :
    resultsOf (metricOuts t v) = [] := by
  unfold metricOuts
  split_ifs <;> rfl

theorem metricsOf_metricOuts (t : Nat) (v : Int) :
    metricsOf (metricOuts t v) =
      (if t = 3 then [("temp", (v : ℚ) / 10)]
       else if t = 5 then [("voltage", (v : ℚ) / 1000)]
       else []) := by
  unfold metricOuts
  split_ifs <;> rfl

theorem checkRec_eq (sst : Option Nat) (t : Nat) (v : Int) (u : String) :
    checkRec ⟨sst, some t, some v, u⟩ =
      (metricOuts t v ++ (statusPhase ⟨sst, some t, some v, u⟩).1,
        (statusPhase ⟨sst, some t, some v, u⟩).2) := by
  unfold checkRec
  rw [metricPhase_eq]

theorem statusPhase_zero (t : Nat) (bits : List (Nat × String × String))
    (ht : STATUS_INFO_MAP.lookup t = some bits)
    (pair : String × String) (hp : bits.lookup 0 = some pair)
    (mv : Option Int) (u : String) :
    statusPhase ⟨some 0, some t, mv, u⟩ = ([.result State.OK pair.1], none) := by
  unfold statusPhase
  simp [ht, hp]

theorem statusPhase_nonzero (t : Nat) (bits : List (Nat × String × String))
    (ht : STATUS_INFO_MAP.lookup t = some bits)
    (s : Nat) (hs : s ≠ 0) (hb : bits ≠ [])
    (mv : Option Int) (u : String) :
    statusPhase ⟨some s, some t, mv, u⟩ =
      ([.result (decodeBits s bits).1 (decodeBits s bits).2], none) := by
  unfold statusPhase
  have hcond : ¬ (some s = some 0) := by simp [hs]
  cases bits with
  | nil => exact absurd rfl hb
  | cons e rest => simp [hcond, ht]

/-- A bit of position 6 or above always yields an OK pair. -/
theorem bitPair_fst_of_ge_six (s b : Nat) (p : String × String)
    (h : 6 ≤ b) : (bitPair s b p).1 = State.OK := by
  simp [bitPair, show ¬ b < 6 by omega]

/-- Looking a type up in the A status table yields a bit list that
declares bit 0, is nonempty, and ends with a bit of position at least
6. -/
theorem table_entry_facts (t : Nat) (bits : List (Nat × String × String))
    (ht : STATUS_INFO_MAP.lookup t = some bits) :
    (∃ pair, bits.lookup 0 = some pair) ∧ bits ≠ [] ∧
      ∃ last, bits.getLast? = some last ∧ 6 ≤ last.1 := by
  have hmem := lookup_mem _ _ _ ht
  have hwf := table_wf (t, bits) hmem
  rw [Bool.and_eq_true] at hwf
  obtain ⟨h0, hlast⟩ := hwf
  have hlast2 : ∃ last, bits.getLast? = some last ∧ 6 ≤ last.1 := by
    rcases hgl : bits.getLast? with _ | b
    · simp [lastBitHigh, hgl] at hlast
    · refine ⟨b, rfl, ?_⟩
      simpa [lastBitHigh, hgl] using hlast
  have hb : bits ≠ [] := by
    obtain ⟨last, hgl, -⟩ := hlast2
    intro hnil
    subst hnil
    simp at hgl
  exact ⟨Option.isSome_iff_exists.mp h0, hb, hlast2⟩

end ChassisA

/-- C1: the claim states that for every chassis sensor type and every
status 0 to 255 the check functions of both dialects never raise and
always yield at least one Result.  The code contradicts it: dialect A
has no STATUS_INFO_MAP entry for sensor types 15 (BACKPLANE), 18 and 31,
so the table lookup raises KeyError, and dialect B's entry for raw type
8 has no bits table, raising KeyError as well; in each case the
generator dies without yielding any Result. -/
theorem chassis_check_missing_type_crash :
    ChassisA.checkRec ⟨some 1, some 15, some 0, ""⟩ = ([], some PyErr.keyError) ∧
    ChassisA.checkRec ⟨some 0, some 18, some 0, ""⟩ = ([], some PyErr.keyError) ∧
    ChassisB.checkRec ⟨some 1, some 8, some 0, ""⟩ = ([], some PyErr.keyError) ∧
    ChassisB.checkRec ⟨some 0, some 8, some 0, ""⟩ = ([], some PyErr.keyError) :=
  ⟨rfl, rfl, rfl, rfl⟩

/-- C2: chassis dialect A decode, for an item present in the section
whose type is in the status table: status 0 emits exactly one OK Result
with the clear message of bit 0; any other status iterates the declared
bits in ascending (source) order, each iteration overwriting one
(severity, message) pair computed by ChassisA.bitPair (a set bit below 6
gives CRIT with the set message, a clear bit OK with the clear message,
bits 6 and 7 OK whether set or clear), and exactly one Result carrying
the pair of the last declared bit is emitted (last-bit-wins). -/
theorem chassis_a_decode_last_bit_wins (item : String)
    (sect : List (String × InfortrendChassisSensorSection))
    (t : Nat) (bits : List (Nat × String × String))
    (ht : ChassisA.STATUS_INFO_MAP.lookup t = some bits)
    (s : Nat) (v : Int) (u : String)
    (hitem : sect.lookup item = some ⟨some s, some t, some v, u⟩) :
    (ChassisA.check_infortrend_chassis_sensors_a item sect).2 = none ∧
    (s = 0 → ∃ pair, bits.lookup 0 = some pair ∧
      resultsOf (ChassisA.check_infortrend_chassis_sensors_a item sect).1 =
        [(State.OK, pair.1)]) ∧
    (s ≠ 0 →
      resultsOf (ChassisA.check_infortrend_chassis_sensors_a item sect).1 =
        [ChassisA.decodeBits s bits] ∧
      ∃ last, bits.getLast? = some last ∧
        ChassisA.decodeBits s bits = ChassisA.bitPair s last.1 last.2) := by
  obtain ⟨⟨pair, hp⟩, hb, -⟩ := ChassisA.table_entry_facts t bits ht
  have hrun : ChassisA.check_infortrend_chassis_sensors_a item sect =
      ChassisA.checkRec ⟨some s, some t, some v, u⟩ := by
    unfold ChassisA.check_infortrend_chassis_sensors_a
    rw [hitem]
  rw [hrun, ChassisA.checkRec_eq]
  by_cases hs : s = 0
  · subst hs
    rw [ChassisA.statusPhase_zero t bits ht pair hp]
    refine ⟨rfl, fun _ => ⟨pair, hp, ?_⟩, fun hns => absurd rfl hns⟩
    rw [resultsOf_append, ChassisA.resultsOf_metricOuts]
    rfl
  · rw [ChassisA.statusPhase_nonzero t bits ht s hs hb]
    refine ⟨rfl, fun h0 => absurd h0 hs, fun _ => ⟨?_, ?_⟩⟩
    · rw [resultsOf_append, ChassisA.resultsOf_metricOuts]
      rfl
    · obtain ⟨last, hgl, heq⟩ :=
        foldl_const_last (fun e => ChassisA.bitPair s e.1 e.2) bits
          (State.OK, "") hb
      exact ⟨last, hgl, heq⟩

/-- Witness for C2: the FAN sensor (type 2) at status 64 is decoded by
the last declared bit, bit 7, which is clear, so the single status
Result is OK with the bit-7 clear message. -/
theorem chassis_a_decode_last_bit_wins_witness :
    resultsOf (ChassisA.check_infortrend_chassis_sensors_a "Fan 1"
      [("Fan 1", ⟨some 64, some 2, some 0, ""⟩)]).1 =
      [(State.OK, "Fan IS present")] := by
  have h := chassis_a_decode_last_bit_wins "Fan 1"
    [("Fan 1", ⟨some 64, some 2, some 0, ""⟩)] 2 _ rfl 64 0 "" rfl
  obtain ⟨-, -, h3⟩ := h
  obtain ⟨hres, -⟩ := h3 (by decide)
  rw [hres]
  rfl

/-- C3: for every sensor type present in the chassis A status table and
every status value, the single status Result emitted by
check_infortrend_chassis_sensors_a has severity OK, because every bit
list of the table ends with bit 6 or 7, whose pair is OK whether the bit
is set or clear and overwrites any CRIT from an earlier bit. -/
theorem chassis_a_status_severity_always_ok (item : String)
    (sect : List (String × InfortrendChassisSensorSection))
    (t : Nat) (bits : List (Nat × String × String))
    (ht : ChassisA.STATUS_INFO_MAP.lookup t = some bits)
    (s : Nat) (v : Int) (u : String)
    (hitem : sect.lookup item = some ⟨some s, some t, some v, u⟩) :
    ∃ msg, (ChassisA.check_infortrend_chassis_sensors_a item sect).2 = none ∧
      resultsOf (ChassisA.check_infortrend_chassis_sensors_a item sect).1 =
        [(State.OK, msg)] := by
  obtain ⟨⟨pair, hp⟩, hb, last, hgl, hhigh⟩ :=
    ChassisA.table_entry_facts t bits ht
  have hrun : ChassisA.check_infortrend_chassis_sensors_a item sect =
      ChassisA.checkRec ⟨some s, some t, some v, u⟩ := by
    unfold ChassisA.check_infortrend_chassis_sensors_a
    rw [hitem]
  rw [hrun, ChassisA.checkRec_eq]
  by_cases hs : s = 0
  · subst hs
    rw [ChassisA.statusPhase_zero t bits ht pair hp]
    refine ⟨pair.1, rfl, ?_⟩
    rw [resultsOf_append, ChassisA.resultsOf_metricOuts]
    rfl
  · rw [ChassisA.statusPhase_nonzero t bits ht s hs hb]
    obtain ⟨last2, hgl2, heq⟩ :=
      foldl_const_last (fun e => ChassisA.bitPair s e.1 e.2) bits
        (State.OK, "") hb
    rw [hgl] at hgl2
    obtain rfl : last = last2 := by injection hgl2
    have hfst : (ChassisA.bitPair s last.1 last.2).1 = State.OK :=
      ChassisA.bitPair_fst_of_ge_six s last.1 last.2 hhigh
    have hdec : ChassisA.decodeBits s bits =
        (State.OK, (ChassisA.bitPair s last.1 last.2).2) := by
      have : ChassisA.decodeBits s bits = ChassisA.bitPair s last.1 last.2 :=
        heq
      rw [this, ← hfst]
    refine ⟨(ChassisA.bitPair s last.1 last.2).2, rfl, ?_⟩
    rw [resultsOf_append, ChassisA.resultsOf_metricOuts]
    simp [resultsOf, hdec]

/-- Witness for C3: the POWER_SUPPLY sensor (type 1) at status 3, whose
bit 0 is set (a malfunction bit), is still reported OK because the later
bit 7 pair overwrites the CRIT verdict. -/
theorem chassis_a_status_severity_always_ok_witness :
    ∃ msg, (ChassisA.check_infortrend_chassis_sensors_a "PSU"
        [("PSU", ⟨some 3, some 1, some 0, ""⟩)]).2 = none ∧
      resultsOf (ChassisA.check_infortrend_chassis_sensors_a "PSU"
        [("PSU", ⟨some 3, some 1, some 0, ""⟩)]).1 = [(State.OK, msg)] :=
  chassis_a_status_severity_always_ok "PSU"
    [("PSU", ⟨some 3, some 1, some 0, ""⟩)] 1 _ rfl 3 0 "" rfl

/-! ## Chassis B lemmas -/

namespace ChassisB

/-- Every entry of the B status table that carries a bits table declares
bit 0. -/
theorem table_wf_b :
    ∀ e ∈ STATUS_INFO_MAP,
      (e.2.elim true (fun bits => (bits.lookup 0).isSome)) = true := by
  decide

theorem table_entry_bit0 (t : Nat) (bits : List (Nat × String × String))
    (ht : STATUS_INFO_MAP.lookup t = some (some bits)) :
    ∃ pair, bits.lookup 0 = some pair := by
  have hmem := lookup_mem _ _ _ ht
  have hwf := table_wf_b (t, some bits) hmem
  simp only [Option.elim] at hwf
  exact Option.isSome_iff_exists.mp hwf

/-- The metric part of the B check is line by line the same code over an
identical table, hence the same function. -/
theorem metricPhase_eq_a : metricPhase = ChassisA.metricPhase := rfl

theorem checkRec_eq_b (sst : Option Nat) (t : Nat) (v : Int) (u : String) :
    checkRec ⟨sst, some t, some v, u⟩ =
      (ChassisA.metricOuts t v ++ (statusPhase ⟨sst, some t, some v, u⟩).1,
        (statusPhase ⟨sst, some t, some v, u⟩).2) := by
  unfold checkRec
  rw [metricPhase_eq_a, ChassisA.metricPhase_eq]

theorem statusPhase_zero_b (t : Nat) (bits : List (Nat × String × String))
    (ht : STATUS_INFO_MAP.lookup t = some (some bits))
    (pair : String × String) (hp : bits.lookup 0 = some pair)
    (mv : Option Int) (u : String) :
    statusPhase ⟨some 0, some t, mv, u⟩ =
      ([.result State.OK pair.1], none) := by
  unfold statusPhase
  simp [ht, hp]

theorem statusPhase_255 (ty : Option Nat) (mv : Option Int) (u : String) :
    statusPhase ⟨some 255, ty, mv, u⟩ =
      ([.result State.UNKNOWN "Status unknown"], none) :=
  rfl

theorem statusPhase_other (t : Nat) (bits : List (Nat × String × String))
    (ht : STATUS_INFO_MAP.lookup t = some (some bits))
    (s : Nat) (hs0 : s ≠ 0) (hs255 : s ≠ 255)
    (mv : Option Int) (u : String) :
    statusPhase ⟨some s, some t, mv, u⟩ =
      (bits.map fun e => .result (bitResult t s e.1 e.2).1
        (bitResult t s e.1 e.2).2, none) := by
  unfold statusPhase
  have h1 : ¬(some s = some 0) := by simp [hs0]
  have h2 : ¬(some s = some 255) := by simp [hs255]
  cases bits with
  | nil => simp [h1, h2, ht]
  | cons e rest => simp [h1, h2, ht]

theorem resultsOf_cons_result (st : State) (s : String) (l : List Output) :
    resultsOf (.result st s :: l) = (st, s) :: resultsOf l :=
  rfl

theorem resultsOf_map_result (bits : List (Nat × String × String))
    (f : Nat × String × String → State × String) :
    resultsOf (bits.map fun e => .result (f e).1 (f e).2) =
      bits.map f := by
  induction bits with
  | nil => rfl
  | cons e rest ih =>
    simp only [List.map_cons, resultsOf_cons_result, ih, Prod.mk.eta]

end ChassisB

/-- Counterexample to C4 as stated: raw sensor type 8 is present in the
B status table (as an empty placeholder entry), yet at status 0 the
check raises KeyError when indexing the missing bits table and yields no
Result at all, instead of one OK Result. -/
theorem chassis_b_type8_counterexample :
    (ChassisB.STATUS_INFO_MAP.lookup 8).isSome = true ∧
    ChassisB.checkRec ⟨some 0, some 8, some 0, ""⟩ =
      ([], some PyErr.keyError) :=
  ⟨rfl, rfl⟩

/-- C4 (amended: the sensor type must have a declared bits table, which
excludes the placeholder entry for raw type 8): chassis dialect B
decode, for an item present in the section: status 0 emits exactly one
OK Result with the clear message of bit 0; status 255 emits exactly one
UNKNOWN "Status unknown" Result; any other status yields one Result per
declared bit as computed by ChassisB.bitResult — a set bit CRIT with the
set message suffixed " (!)", a clear bit OK with the clear message, with
no 6/7 threshold split, and at status exactly 64 each pair is overridden
to OK with a trailing ", " for LED sensors (type 12) and to CRIT with
the raw status prefixed for every other type. -/
theorem chassis_b_decode_per_bit (item : String)
    (sect : List (String × InfortrendChassisSensorSection))
    (t : Nat) (bits : List (Nat × String × String))
    (ht : ChassisB.STATUS_INFO_MAP.lookup t = some (some bits))
    (s : Nat) (v : Int) (u : String)
    (hitem : sect.lookup item = some ⟨some s, some t, some v, u⟩) :
    (ChassisB.check_infortrend_chassis_sensors_b item sect).2 = none ∧
    (s = 0 → ∃ pair, bits.lookup 0 = some pair ∧
      resultsOf (ChassisB.check_infortrend_chassis_sensors_b item sect).1 =
        [(State.OK, pair.1)]) ∧
    (s = 255 →
      resultsOf (ChassisB.check_infortrend_chassis_sensors_b item sect).1 =
        [(State.UNKNOWN, "Status unknown")]) ∧
    (s ≠ 0 → s ≠ 255 →
      resultsOf (ChassisB.check_infortrend_chassis_sensors_b item sect).1 =
        bits.map fun e => ChassisB.bitResult t s e.1 e.2) := by
  obtain ⟨pair, hp⟩ := ChassisB.table_entry_bit0 t bits ht
  have hrun : ChassisB.check_infortrend_chassis_sensors_b item sect =
      ChassisB.checkRec ⟨some s, some t, some v, u⟩ := by
    unfold ChassisB.check_infortrend_chassis_sensors_b
    rw [hitem]
  rw [hrun, ChassisB.checkRec_eq_b]
  by_cases hs0 : s = 0
  · subst hs0
    rw [ChassisB.statusPhase_zero_b t bits ht pair hp]
    refine ⟨rfl, fun _ => ⟨pair, hp, ?_⟩, fun h => by simp at h,
      fun hns _ => absurd rfl hns⟩
    rw [resultsOf_append, ChassisA.resultsOf_metricOuts]
    rfl
  · by_cases hs255 : s = 255
    · subst hs255
      rw [ChassisB.statusPhase_255]
      refine ⟨rfl, fun h => by simp at h, fun _ => ?_,
        fun _ hns => absurd rfl hns⟩
      rw [resultsOf_append, ChassisA.resultsOf_metricOuts]
      rfl
    · rw [ChassisB.statusPhase_other t bits ht s hs0 hs255]
      refine ⟨rfl, fun h0 => absurd h0 hs0, fun h255 => absurd h255 hs255,
        fun _ _ => ?_⟩
      rw [resultsOf_append, ChassisA.resultsOf_metricOuts]
      simpa using ChassisB.resultsOf_map_result bits
        (fun e => ChassisB.bitResult t s e.1 e.2)

/-- Witness for C4: the LED sensor (type 12) at status 64 yields three
Results, one per declared bit, each forced OK with a trailing comma by
the status-64 override. -/
theorem chassis_b_decode_per_bit_witness :
    resultsOf (ChassisB.check_infortrend_chassis_sensors_b "LED"
      [("LED", ⟨some 64, some 12, some 0, ""⟩)]).1 =
      [(State.OK, ", "), (State.OK, "LED is inactive (!), "),
        (State.OK, "LED is present, ")] := by
  have h := chassis_b_decode_per_bit "LED"
    [("LED", ⟨some 64, some 12, some 0, ""⟩)] 12 _ rfl 64 0 "" rfl
  obtain ⟨-, -, -, h4⟩ := h
  rw [h4 (by decide) (by decide)]
  rfl

/-! ## Disk claims -/

/-- C5: for an item present in the section, the disk status decode gives
the claimed severity policy: codes 1, 3, 9 (dialect A) respectively
1, 3, 9, 63 (dialect B) are OK, other mapped codes above 63 are CRIT,
other mapped codes are WARN, and a code with no table entry yields
exactly one UNKNOWN Result whose message carries the literal numeric
status. -/
theorem disks_severity_policy (item slotA slotB desc : String) (n : Int)
    (sectA : List (String × DisksA.InfortrendDiskSection))
    (sectB : List (String × DisksB.InfortrendDiskSection))
    (hA : sectA.lookup item = some ⟨slotA, some n, desc⟩)
    (hB : sectB.lookup item = some ⟨slotB, some n⟩) :
    (∀ txt, DisksA.DISK_STATUS_MAP.lookup n = some txt →
      DisksA.check_infortrend_disks item sectA =
        [.result (diskSeverityClaimedA n) (desc ++ txt)] ∧
      DisksB.check_infortrend_disks_b item sectB =
        [.result (diskSeverityClaimedB n) txt]) ∧
    (DisksA.DISK_STATUS_MAP.lookup n = none →
      DisksA.check_infortrend_disks item sectA =
        [.result State.UNKNOWN (desc ++ "Status is " ++ toString n)] ∧
      DisksB.check_infortrend_disks_b item sectB =
        [.result State.UNKNOWN ("Status is " ++ toString n)]) := by
  constructor
  · intro txt hlt
    constructor
    · unfold DisksA.check_infortrend_disks
      rw [hA]
      simp only [DisksA.checkRec, hlt]
      unfold diskSeverityClaimedA
      split_ifs <;> rfl
    · unfold DisksB.check_infortrend_disks_b
      rw [hB]
      have hltB : DisksB.DISK_STATUS_MAP.lookup n = some txt := hlt
      simp only [DisksB.checkRec, hltB]
      unfold diskSeverityClaimedB
      split_ifs <;> rfl
  · intro hnone
    constructor
    · unfold DisksA.check_infortrend_disks
      rw [hA]
      simp only [DisksA.checkRec, hnone]
    · unfold DisksB.check_infortrend_disks_b
      rw [hB]
      have hnoneB : DisksB.DISK_STATUS_MAP.lookup n = none := hnone
      simp only [DisksB.checkRec, hnoneB]

/-- Witness for C5: status 255 is CRIT "Failed Drive", the unmapped
status 200 is UNKNOWN carrying "200", and status 63 (Drive Absent) is OK
in dialect B but WARN in dialect A. -/
theorem disks_severity_policy_witness :
    DisksA.check_infortrend_disks "1" [("1", ⟨"1", some 255, "D, "⟩)] =
      [.result State.CRIT "D, Failed Drive"] ∧
    DisksB.check_infortrend_disks_b "1" [("1", ⟨"1", some 200⟩)] =
      [.result State.UNKNOWN "Status is 200"] ∧
    DisksB.check_infortrend_disks_b "1" [("1", ⟨"1", some 63⟩)] =
      [.result State.OK "Drive Absent"] ∧
    DisksA.check_infortrend_disks "1" [("1", ⟨"1", some 63, ""⟩)] =
      [.result State.WARN "Drive Absent"] := by
  refine ⟨?_, ?_, ?_, ?_⟩
  · exact ((disks_severity_policy "1" "1" "1" "D, " 255
      [("1", ⟨"1", some 255, "D, "⟩)] [("1", ⟨"1", some 255⟩)]
      rfl rfl).1 "Failed Drive" rfl).1
  · exact ((disks_severity_policy "1" "1" "1" "" 200
      [("1", ⟨"1", some 200, ""⟩)] [("1", ⟨"1", some 200⟩)]
      rfl rfl).2 rfl).2
  · exact ((disks_severity_policy "1" "1" "1" "" 63
      [("1", ⟨"1", some 63, ""⟩)] [("1", ⟨"1", some 63⟩)]
      rfl rfl).1 "Drive Absent" rfl).2
  · exact ((disks_severity_policy "1" "1" "1" "" 63
      [("1", ⟨"1", some 63, ""⟩)] [("1", ⟨"1", some 63⟩)]
      rfl rfl).1 "Drive Absent" rfl).1

/-! ## Logical drive claims -/

/-- C6: the claim states that a status whose low 7 bits fall outside the
state table must never crash the check and must fall back to one UNKNOWN
Result with the raw numeral.  The code contradicts it: dialect A crashes
with KeyError at the unguarded table lookup of its format line and
yields nothing, dialect B yields the UNKNOWN Result and then crashes
with KeyError at its own unguarded lookup; shown at status 8 and at
status 136 (bit 7 set plus code 8). -/
theorem logical_drives_unknown_code_crash :
    LogicalDrivesA.checkRec ⟨some 8⟩ = ([], some PyErr.keyError) ∧
    LogicalDrivesB.checkRec ⟨some 8⟩ =
      ([.result State.UNKNOWN "Status is 8"], some PyErr.keyError) ∧
    LogicalDrivesA.checkRec ⟨some 136⟩ = ([], some PyErr.keyError) ∧
    LogicalDrivesB.checkRec ⟨some 136⟩ =
      ([.result State.UNKNOWN "Status is 8"], some PyErr.keyError) :=
  ⟨rfl, rfl, rfl, rfl⟩

/-- C7: logical-drive status 131 = 128 + 3: both dialects emit exactly
one CRIT Result whose message contains both "Logical Drive Off-line
(RW)" (prepended after the status & 128 test) and "Degraded" (the table
text of the masked low-7-bit code 3). -/
theorem logical_drives_status_131_offline_degraded :
    LogicalDrivesA.check_infortrend_logical_drives_a "0"
      [("0", ⟨some 131⟩)] =
      ([.result State.CRIT "Logical Drive Off-line (RW) Degraded"], none) ∧
    LogicalDrivesB.check_infortrend_logical_drives_b "0"
      [("0", ⟨some 131⟩)] =
      ([.result State.CRIT "Logical Drive Off-line (RW), Degraded"], none) ∧
    "Logical Drive Off-line (RW)".data <:+:
      "Logical Drive Off-line (RW) Degraded".data ∧
    "Degraded".data <:+: "Logical Drive Off-line (RW) Degraded".data ∧
    "Logical Drive Off-line (RW)".data <:+:
      "Logical Drive Off-line (RW), Degraded".data ∧
    "Degraded".data <:+: "Logical Drive Off-line (RW), Degraded".data := by
  refine ⟨rfl, rfl, ?_, ?_, ?_, ?_⟩ <;> decide

/-! ## Error handling claims -/

/-- C8: the claim states that integer conversion failure never raises
(the field becomes the distinct absent value) and that a check invoked
on a record with an absent status emits UNKNOWN and never raises.  The
code contradicts both halves: the chassis checks of both dialects crash
with TypeError on the bit test of an absent status instead of reporting
UNKNOWN, and parse_infortrend_disks converts the size column with bare
int(), raising ValueError on a non-numeric token; saveint itself does
return the absent value. -/
theorem absent_status_and_bare_int_crash :
    ChassisA.checkRec ⟨none, some 2, some 0, ""⟩ =
      ([], some PyErr.typeError) ∧
    ChassisB.checkRec ⟨none, some 2, some 0, ""⟩ =
      ([], some PyErr.typeError) ∧
    DisksA.parse_infortrend_disks [["1", "1", "M", "V", "S", "x", "9"]] =
      .error PyErr.valueError ∧
    saveint "x" = none :=
  ⟨rfl, rfl, rfl, rfl⟩

/-! ## Metric claim -/

theorem metricsOf_cons_result (st : State) (s : String) (l : List Output) :
    metricsOf (.result st s :: l) = metricsOf l :=
  rfl

theorem metricsOf_map_result (bits : List (Nat × String × String))
    (f : Nat × String × String → State × String) :
    metricsOf (bits.map fun e => Output.result (f e).1 (f e).2) = [] := by
  induction bits with
  | nil => rfl
  | cons e rest ih => simp only [List.map_cons, metricsOf_cons_result, ih]

theorem chassis_a_statusPhase_metricsOf (r : InfortrendChassisSensorSection) :
    metricsOf (ChassisA.statusPhase r).1 = [] := by
  unfold ChassisA.statusPhase
  repeat' split <;> try rfl

theorem chassis_b_statusPhase_metricsOf (r : InfortrendChassisSensorSection) :
    metricsOf (ChassisB.statusPhase r).1 = [] := by
  unfold ChassisB.statusPhase
  repeat' split <;> try rfl
  exact metricsOf_map_result _ _

/-- C9: for a chassis item present in the section, a temperature sensor
(type 3) emits exactly one metric named temp of value raw / 10, a
voltage sensor (type 5) exactly one metric named voltage of value
raw / 1000, and every other sensor type emits no metric, regardless of
the raw value and of the status; in both dialects. -/
theorem chassis_metric_extraction (item : String) (t s : Nat) (v : Int)
    (u u2 : String)
    (sectA : List (String × InfortrendChassisSensorSection))
    (sectB : List (String × InfortrendChassisSensorSection))
    (hA : sectA.lookup item = some ⟨some s, some t, some v, u⟩)
    (hB : sectB.lookup item = some ⟨some s, some t, some v, u2⟩) :
    metricsOf (ChassisA.check_infortrend_chassis_sensors_a item sectA).1 =
      (if t = 3 then [("temp", (v : ℚ) / 10)]
       else if t = 5 then [("voltage", (v : ℚ) / 1000)]
       else []) ∧
    metricsOf (ChassisB.check_infortrend_chassis_sensors_b item sectB).1 =
      (if t = 3 then [("temp", (v : ℚ) / 10)]
       else if t = 5 then [("voltage", (v : ℚ) / 1000)]
       else []) := by
  constructor
  · have hrun : ChassisA.check_infortrend_chassis_sensors_a item sectA =
        ChassisA.checkRec ⟨some s, some t, some v, u⟩ := by
      unfold ChassisA.check_infortrend_chassis_sensors_a
      rw [hA]
    rw [hrun, ChassisA.checkRec_eq, metricsOf_append,
      chassis_a_statusPhase_metricsOf, ChassisA.metricsOf_metricOuts]
    simp
  · have hrun : ChassisB.check_infortrend_chassis_sensors_b item sectB =
        ChassisB.checkRec ⟨some s, some t, some v, u2⟩ := by
      unfold ChassisB.check_infortrend_chassis_sensors_b
      rw [hB]
    rw [hrun, ChassisB.checkRec_eq_b, metricsOf_append,
      chassis_b_statusPhase_metricsOf, ChassisA.metricsOf_metricOuts]
    simp

/-- Witness for C9: raw 250 on a temperature sensor gives temp = 25, raw
5000 on a voltage sensor gives voltage = 5, and a fan sensor gives no
metric for the same raw value. -/
theorem chassis_metric_extraction_witness :
    metricsOf (ChassisA.check_infortrend_chassis_sensors_a "T"
      [("T", ⟨some 0, some 3, some 250, ""⟩)]).1 = [("temp", 25)] ∧
    metricsOf (ChassisB.check_infortrend_chassis_sensors_b "V"
      [("V", ⟨some 0, some 5, some 5000, ""⟩)]).1 = [("voltage", 5)] ∧
    metricsOf (ChassisA.check_infortrend_chassis_sensors_a "F"
      [("F", ⟨some 0, some 2, some 250, ""⟩)]).1 = [] := by
  refine ⟨?_, ?_, ?_⟩
  · rw [(chassis_metric_extraction "T" 3 0 250 "" ""
      [("T", ⟨some 0, some 3, some 250, ""⟩)]
      [("T", ⟨some 0, some 3, some 250, ""⟩)] rfl rfl).1]
    norm_num
  · rw [(chassis_metric_extraction "V" 5 0 5000 "" ""
      [("V", ⟨some 0, some 5, some 5000, ""⟩)]
      [("V", ⟨some 0, some 5, some 5000, ""⟩)] rfl rfl).2]
    norm_num
  · rw [(chassis_metric_extraction "F" 2 0 250 "" ""
      [("F", ⟨some 0, some 2, some 250, ""⟩)]
      [("F", ⟨some 0, some 2, some 250, ""⟩)] rfl rfl).1]
    norm_num

/-! ## Disks B parse claim -/

/-- Counterexample to C10 as stated: a row whose disk index is 0 (here
the single row, with row index 0 and slot token "0") is not skipped: the
guard compares the integer loop index with the string "0", never holds,
and the row contributes the entry keyed "0" to the parsed mapping
instead of no entry. -/
theorem disks_b_row_zero_not_skipped :
    DisksB.parse_infortrend_disks_b [["0", "5"]] =
      [("0", ⟨"0", some 5⟩)] :=
  rfl

/-- C10 (amended: no row is ever skipped, because the skip guard
compares the integer row index with the string "0" and never holds):
for every input table, the disks B parser processes every row with key
str(int(slot) or row-index) under first-seen-wins insertion, where the
row index substitutes exactly when the slot token fails to convert or
converts to 0. -/
theorem disks_b_parse_key_policy :
    (∀ table, DisksB.parse_infortrend_disks_b table =
      parse_infortrend_disks_b_claimed table) ∧
    (∀ tok (i : Nat), saveint tok = none ∨ saveint tok = some 0 →
      pyOr (saveint tok) (i : Int) = (i : Int)) ∧
    (∀ tok (n : Int) (i : Nat), saveint tok = some n → n ≠ 0 →
      pyOr (saveint tok) (i : Int) = n) := by
  refine ⟨?_, ?_, ?_⟩
  · intro table
    rfl
  · intro tok i h
    rcases h with h | h <;> simp [pyOr, pyTruthy, h]
  · intro tok n i h hn
    simp [pyOr, pyTruthy, h, hn]

/-- Witness for C10: a failing token and a zero token fall back to the
row index, a nonzero token keeps its own value, and the parser agrees
with the claimed description on a concrete table. -/
theorem disks_b_parse_key_policy_witness :
    DisksB.parse_infortrend_disks_b [["abc", "3"], ["0", "5"], ["7", "1"]] =
      parse_infortrend_disks_b_claimed [["abc", "3"], ["0", "5"], ["7", "1"]] ∧
    pyOr (saveint "abc") 0 = 0 ∧
    pyOr (saveint "0") 1 = 1 ∧
    pyOr (saveint "7") 2 = 7 :=
  ⟨disks_b_parse_key_policy.1 _,
    disks_b_parse_key_policy.2.1 "abc" 0 (Or.inl rfl),
    disks_b_parse_key_policy.2.1 "0" 1 (Or.inr rfl),
    disks_b_parse_key_policy.2.2 "7" 7 2 rfl (by decide)⟩

end Infortrend
